import Mathlib

/-!
# Weather service: forecast extraction pipeline

A shallow embedding of `main.go` and `page_models/ForecastModel.go` of the
weather service, followed by the properties of the temperature classifier,
the forecast extractor and the `submitForm` pipeline.

Conventions of the embedding:

* a Go `error` is a `GoError` carrying its message; a possibly-nil `error`
  result is an `Option GoError`;
* Go functions with several results return a tuple, in the order of the source;
* every call that leaves the function (logging, HTTP, JSON decoding, template
  rendering) and every call of one function of `main.go` by another is recorded
  as an `Event`; a function returns its results together with the events it
  produced, in program order;
* the outcomes of the external calls are supplied by an `Env`.
-/

namespace WeatherService

/-! ## Data model (`page_models/ForecastModel.go`) -/

/-- Go `float64`, carried as its IEEE-754 bit pattern; the program never inspects one. -/
abbrev Float64 := Nat

/-- Go `interface{}` as filled in by `encoding/json`, carried as the JSON text
it was decoded from; the program never inspects one. -/
abbrev Interface := String

/-- The anonymous struct `ForecastModel.Geometry`. -/
structure ForecastGeometry where
  Type_ : String
  Coordinates : List (List (List Float64))
  deriving DecidableEq, Repr

/-- The anonymous struct `ForecastModel.Properties.Elevation`. -/
structure Elevation where
  UnitCode : String
  Value : Float64
  deriving DecidableEq, Repr

/-- The anonymous struct `ProbabilityOfPrecipitation` of a period. -/
structure ProbabilityOfPrecipitation where
  UnitCode : String
  Value : Int
  deriving DecidableEq, Repr

/-- One element of `ForecastModel.Properties.Periods`. -/
structure Period where
  Number : Int
  Name : String
  StartTime : String
  EndTime : String
  IsDaytime : Bool
  Temperature : Int
  TemperatureUnit : String
  TemperatureTrend : Interface
  ProbabilityOfPrecipitation : ProbabilityOfPrecipitation
  WindSpeed : String
  WindDirection : String
  Icon : String
  ShortForecast : String
  DetailedForecast : String
  deriving DecidableEq, Repr

/-- The anonymous struct `ForecastModel.Properties`. -/
structure ForecastProperties where
  Units : String
  ForecastGenerator : String
  GeneratedAt : String
  UpdateTime : String
  ValidTimes : String
  Elevation : Elevation
  Periods : List Period
  deriving DecidableEq, Repr

/-- The struct `page_models.ForecastModel`. -/
structure ForecastModel where
  Context : List Interface
  Type_ : String
  Geometry : ForecastGeometry
  Properties : ForecastProperties
  deriving DecidableEq, Repr

/-- Modelled from the spec: the anonymous struct `CoordinateModel.Properties`; the
file declaring `page_models.CoordinateModel` is not part of the sources. The spec
gives the points response one attribute of interest, the string at `properties.forecast`. -/
structure CoordinateProperties where
  Forecast : String
  deriving DecidableEq, Repr

/-- Modelled from the spec: the struct `page_models.CoordinateModel`, whose declaring
file is not part of the sources; `main.go` reads `data.Properties.Forecast` only. -/
structure CoordinateModel where
  Properties : CoordinateProperties
  deriving DecidableEq, Repr

/-- The struct `Data` of `main.go`, handed to the response template. -/
structure Data where
  Title : String
  ForecastData : String
  TempFeeling : String
  deriving DecidableEq, Repr

/-! ## Errors, formatting, events -/

/-- A non-nil Go `error`, identified by the text `Error()` returns. -/
structure GoError where
  msg : String
  deriving DecidableEq, Repr

/-- The part of `fmt.Sprintf` the program uses: the verb `%s` applied to string
operands; all other characters of the format are copied. A `%s` without operand
prints as Go does, `%!s(MISSING)`. -/
def sprintfChars : List Char → List String → List Char
  | [], _ => []
  | [c], _ => [c]
  | c :: d :: rest, args =>
    if c = '%' ∧ d = 's' then
      match args with
      | a :: args' => a.data ++ sprintfChars rest args'
      | [] => "%!s(MISSING)".data ++ sprintfChars rest []
    else c :: sprintfChars (d :: rest) args

/-- The function `fmt.Sprintf`, for formats whose only verb is `%s`. -/
def Sprintf (format : String) (args : List String) : String :=
  ⟨sprintfChars format.data args⟩

/-- The function `fmt.Errorf`: the error whose message is the formatted text. -/
def Errorf (format : String) (args : List String) : GoError :=
  ⟨Sprintf format args⟩

/-- An `*http.Response` as far as the program is concerned: a status and a body
that can be decoded and must be closed. -/
structure Response where
  StatusCode : Nat
  Body : String
  deriving DecidableEq, Repr

/-- The value of a `slog` attribute. -/
inductive LogValue where
  | str (s : String)
  | err (e : GoError)
  | forecast (data : ForecastModel)
  deriving DecidableEq, Repr

/-- The observable steps of the program, in the order they happen. -/
inductive Event where
  | slogInfo (msg : String) (attrs : List (String × LogValue))
  | slogError (msg : String) (attrs : List (String × LogValue))
  | httpGet (url : String)
  | bodyClose (resp : Response)
  | jsonDecode (resp : Response)
  | httpError (msg : String) (code : Nat)
  | parseFiles (file : String)
  | execute (file : String) (data : Option Data)
  | callExtractCoordinates (resp : Response)
  | callExtractForecastData (resp : Response)
  | callTemperatureFeeling (temp : Int) (tempUnit : String)
  | callRenderResponsePage (forecastData tempFeeling : String)
  deriving DecidableEq, Repr

/-- The incoming `*http.Request` as `submitForm` reads it: the method, the outcome
of `ParseForm` and the lookup `FormValue`. -/
structure Request where
  Method : String
  ParseForm : Option GoError
  FormValue : String → String

/-- The outcomes of the calls that leave the program. `httpGet n url` is the
outcome of the `n`-th `http.Get` of a request (counted from 0); the decoders are
`json.NewDecoder(resp.Body).Decode` at the two model types; `parseFiles` and
`execute` are those of `text/template`. -/
structure Env where
  httpGet : Nat → String → Except GoError Response
  decodeCoordinate : Response → Except GoError CoordinateModel
  decodeForecast : Response → Except GoError ForecastModel
  parseFiles : String → Option GoError
  execute : String → Option Data → Option GoError

/-! ## The program (`main.go`) -/

/-- The function `temperatureFeeling`. -/
def temperatureFeeling (temp : Int) (tempUnit : String) : String × Option GoError :=
  if tempUnit = "F" then
    if temp ≤ 32 then ("cold", none)
    else if temp > 32 ∧ temp ≤ 70 then ("moderate", none)
    else ("hot", none)
  else ("", some (Errorf "Unsupported temperature unit for USA: %s" [tempUnit]))

/-- The function `extractCoordinates`: decode the points response and return the
forecast URL it holds. -/
def extractCoordinates (env : Env) (resp : Response) : (String × Option GoError) × List Event :=
  match env.decodeCoordinate resp with
  | .error err => (("", some err), [.jsonDecode resp])
  | .ok data => ((data.Properties.Forecast, none), [.jsonDecode resp])

/-- The four results of `extractForecastData`, in the order of the source:
`(shortForecast, tempFeeling, time_of_day, err)`. -/
abbrev ExtractResult := String × String × String × Option GoError

/-- The function `extractForecastData`: decode the forecast response, then derive
the short forecast, the temperature feeling and the time of day from the first
period. The results are in the order of the source:
`(shortForecast, tempFeeling, time_of_day, err)`. -/
def extractForecastData (env : Env) (resp : Response) : ExtractResult × List Event :=
  match env.decodeForecast resp with
  | .error err =>
    (("", "", "", some err),
      [.jsonDecode resp,
       .slogError "Error decoding forecast data from API response" [("error", .err err)]])
  | .ok data =>
    let decoded : List Event :=
      [.jsonDecode resp,
       .slogInfo "Successfully decoded forecast data from API response" [("data", .forecast data)]]
    if h : data.Properties.Periods.length = 0 then
      (("", "", "", some (Errorf "No Forecast periods available" [])), decoded)
    else
      have h0 : 0 < data.Properties.Periods.length := Nat.pos_of_ne_zero h
      let first : Period := data.Properties.Periods[0]
      let (time_of_day, logged) : String × List Event :=
        if first.Name = "Tonight" then
          ("night", [.slogInfo "It's currently nighttime based on forecast data" []])
        else
          ("day", [.slogInfo "It's currently daytime based on forecast data" []])
      let shortForecast := first.ShortForecast
      let temp := first.Temperature
      let tempUnit := first.TemperatureUnit
      match temperatureFeeling temp tempUnit with
      | (_, some err) =>
        (("", "", "", some err),
          decoded ++ logged ++
            [.callTemperatureFeeling temp tempUnit,
             .slogError "Error getting temperature feeling" [("error", .err err)]])
      | (tempFeeling, none) =>
        ((shortForecast, tempFeeling, time_of_day, none),
          decoded ++ logged ++
            [.callTemperatureFeeling temp tempUnit,
             .slogInfo "Extracted shortForecast from API response" [("data", .str shortForecast)]])

/-- The function `renderResponsePage`: parse the response template and execute it
on the forecast data. -/
def renderResponsePage (env : Env) (forecastData tempFeeling : String) : List Event :=
  match env.parseFiles "page/responsePage.html" with
  | some err =>
    [.parseFiles "page/responsePage.html",
     .slogError "Error parsing template" [("error", .err err)],
     .httpError "Internal Server Error" 500]
  | none =>
    let data := Data.mk "Weather Forecast Service" forecastData tempFeeling
    match env.execute "page/responsePage.html" (some data) with
    | some err =>
      [.parseFiles "page/responsePage.html",
       .execute "page/responsePage.html" (some data),
       .slogError "Error executing template" [("error", .err err)],
       .httpError "Internal Server Error" 500]
    | none =>
      [.parseFiles "page/responsePage.html",
       .execute "page/responsePage.html" (some data)]

/-- The handler `submitForm`: the events of one request, in order. The deferred
`Body.Close()` calls come last, the later deferred one first. -/
def submitForm (env : Env) (r : Request) : List Event :=
  if r.Method ≠ "POST" then
    [.httpError "Invalid request method" 405]
  else
    match r.ParseForm with
    | some _ => [.httpError "Error parsing form" 400]
    | none =>
      let latitude := r.FormValue "latitude"
      let longitude := r.FormValue "longitude"
      let received : List Event :=
        [.slogInfo "Received form submission"
          [("latitude", .str latitude), ("longitude", .str longitude)]]
      let link := "https://api.weather.gov/points/%s,%s"
      let link := Sprintf link [latitude, longitude]
      match env.httpGet 0 link with
      | .error _ =>
        received ++ [.httpGet link, .httpError "Error making API request" 500]
      | .ok resp =>
        match extractCoordinates env resp with
        | ((_, some _), t1) =>
          received ++ [.httpGet link, .callExtractCoordinates resp] ++ t1 ++
            [.httpError "Error extracting coordinates" 500, .bodyClose resp]
        | ((newURL, none), t1) =>
          match env.httpGet 1 newURL with
          | .error _ =>
            received ++ [.httpGet link, .callExtractCoordinates resp] ++ t1 ++
              [.httpGet newURL, .httpError "Error making second API request" 500,
               .bodyClose resp]
          | .ok resp2 =>
            match extractForecastData env resp2 with
            | ((_, _, _, some err), t2) =>
              received ++ [.httpGet link, .callExtractCoordinates resp] ++ t1 ++
                [.httpGet newURL, .callExtractForecastData resp2] ++ t2 ++
                [.slogError "Error extracting forecast data" [("error", .err err)],
                 .httpError "Error extracting forecast data" 500,
                 .bodyClose resp2, .bodyClose resp]
            | ((forecastData, tempFeeling, _, none), t2) =>
              received ++ [.httpGet link, .callExtractCoordinates resp] ++ t1 ++
                [.httpGet newURL, .callExtractForecastData resp2] ++ t2 ++
                [.callRenderResponsePage forecastData tempFeeling] ++
                renderResponsePage env forecastData tempFeeling ++
                [.bodyClose resp2, .bodyClose resp]

/-! ## Observations on results and traces -/

/-- First result of `extractForecastData`: the short description. -/
def ExtractResult.shortForecast (res : ExtractResult) : String := res.1

/-- Second result of `extractForecastData`: the temperature feeling. -/
def ExtractResult.tempFeeling (res : ExtractResult) : String := res.2.1

/-- Third result of `extractForecastData`: the time of day. -/
def ExtractResult.timeOfDay (res : ExtractResult) : String := res.2.2.1

/-- Fourth result of `extractForecastData`: the error, `none` for Go's `nil`. -/
def ExtractResult.err (res : ExtractResult) : Option GoError := res.2.2.2

/-- The events that start a stage of the pipeline: an upstream request or the call
of one of the stage functions of `main.go`. -/
def Event.isStage : Event → Bool
  | .httpGet _ => true
  | .callExtractCoordinates _ => true
  | .callExtractForecastData _ => true
  | .callRenderResponsePage _ _ => true
  | _ => false

/-- The stage events of a trace, in order. -/
def stagesRun (trace : List Event) : List Event := trace.filter Event.isStage

/-- The failure written to the client by an `http.Error` event. -/
def Event.report : Event → Option (String × Nat)
  | .httpError msg code => some (msg, code)
  | _ => none

/-- The failures written to the client during a trace, in order. -/
def reported (trace : List Event) : List (String × Nat) := trace.filterMap Event.report

/-- The URL of an `http.Get` event. -/
def Event.url : Event → Option String
  | .httpGet url => some url
  | _ => none

/-- The URLs requested during a trace, in order. -/
def requestedURLs (trace : List Event) : List String := trace.filterMap Event.url

/-- An error `outer` wraps `inner` with context when its message is a non-empty
context followed by the message of `inner`, as `fmt.Errorf("context: %w", inner)` gives. -/
def WrapsWithContext (outer inner : GoError) : Prop :=
  ∃ context : String, context ≠ "" ∧ outer.msg = context ++ inner.msg

/-! ## Concrete inputs -/

/-- A forecast period with the four fields the extractor reads; the others are fixed. -/
def periodOf (name : String) (temperature : Int) (temperatureUnit shortForecast : String) :
    Period :=
  Period.mk 1 name "2024-01-01T06:00:00-05:00" "2024-01-01T18:00:00-05:00" true temperature
    temperatureUnit "null" (ProbabilityOfPrecipitation.mk "wmoUnit:percent" 10)
    "5 mph" "NW" "https://api.weather.gov/icons/land/day/few" shortForecast "Detailed."

/-- A forecast payload with the given periods; the other fields are fixed. -/
def payloadOf (periods : List Period) : ForecastModel :=
  ForecastModel.mk ["\"https://geojson.org/geojson-ld/geojson-context.jsonld\""] "Feature"
    (ForecastGeometry.mk "Polygon" [[[0, 1], [2, 3]]])
    (ForecastProperties.mk "us" "BaselineForecastGenerator" "2024-01-01T10:00:00+00:00"
      "2024-01-01T09:00:00+00:00" "2024-01-01T03:00:00+00:00/P7DT22H"
      (Elevation.mk "wmoUnit:m" 100) periods)

/-- An environment in which every request succeeds, the points response decodes to
the forecast URL `https://x/forecast`, the forecast response decodes to `data`, and
the template renders. -/
def envOf (data : ForecastModel) : Env :=
  Env.mk (fun _ url => .ok (Response.mk 200 url))
    (fun _ => .ok (CoordinateModel.mk (CoordinateProperties.mk "https://x/forecast")))
    (fun _ => .ok data) (fun _ => none) (fun _ _ => none)

/-- As `envOf`, but the second `http.Get` fails with a network error. -/
def envSecondGetFails (data : ForecastModel) : Env :=
  Env.mk (fun n url => if n = 1 then .error (GoError.mk "dial tcp: connection refused")
      else .ok (Response.mk 200 url))
    (fun _ => .ok (CoordinateModel.mk (CoordinateProperties.mk "https://x/forecast")))
    (fun _ => .ok data) (fun _ => none) (fun _ _ => none)

/-- A `POST` request whose form parses and holds the given coordinates. -/
def postRequest (latitude longitude : String) : Request :=
  Request.mk "POST" none
    (fun key => if key = "latitude" then latitude else if key = "longitude" then longitude else "")

/-- The response handed to the extractor in the concrete cases. -/
def sampleResponse : Response := Response.mk 200 "https://x/forecast"

/-! ## Formatting lemmas -/

theorem sprintfChars_cons_of_ne (c : Char) (rest : List Char) (args : List String)
    (hc : c ≠ '%') : sprintfChars (c :: rest) args = c :: sprintfChars rest args := by
  cases rest with
  | nil => simp [sprintfChars]
  | cons d rest => simp [sprintfChars, hc]

theorem sprintfChars_verb (rest : List Char) (a : String) (args : List String) :
    sprintfChars ('%' :: 's' :: rest) (a :: args) = a.data ++ sprintfChars rest args := by
  simp [sprintfChars]

theorem Sprintf_unsupported (tempUnit : String) :
    Sprintf "Unsupported temperature unit for USA: %s" [tempUnit]
      = "Unsupported temperature unit for USA: " ++ tempUnit := by
  apply String.ext
  have hf : "Unsupported temperature unit for USA: %s".data
      = "Unsupported temperature unit for USA: ".data ++ ['%', 's'] := by decide
  simp only [Sprintf, String.data_append, hf]
  simp [sprintfChars_cons_of_ne, sprintfChars_verb, sprintfChars]

theorem Sprintf_points (latitude longitude : String) :
    Sprintf "https://api.weather.gov/points/%s,%s" [latitude, longitude]
      = "https://api.weather.gov/points/" ++ latitude ++ "," ++ longitude := by
  apply String.ext
  have hf : "https://api.weather.gov/points/%s,%s".data
      = "https://api.weather.gov/points/".data ++ ['%', 's', ',', '%', 's'] := by decide
  simp only [Sprintf, String.data_append, hf]
  simp [sprintfChars_cons_of_ne, sprintfChars_verb, sprintfChars]

theorem Errorf_noPeriods :
    Errorf "No Forecast periods available" [] = ⟨"No Forecast periods available"⟩ := by
  decide

/-! ## The extractor on a decoded payload -/

theorem temperatureFeeling_F (temp : Int) :
    temperatureFeeling temp "F"
      = (if temp ≤ 32 then "cold" else if temp ≤ 70 then "moderate" else "hot", none) := by
  unfold temperatureFeeling
  by_cases h1 : temp ≤ 32
  · simp [h1]
  · by_cases h2 : temp ≤ 70
    · have h3 : temp > 32 := by omega
      simp [h1, h2, h3]
    · simp [h1, h2]

theorem temperatureFeeling_F_cases (temp : Int) :
    (temp ≤ 32 ∧ (temperatureFeeling temp "F").1 = "cold") ∨
    (33 ≤ temp ∧ temp ≤ 70 ∧ (temperatureFeeling temp "F").1 = "moderate") ∨
    (71 ≤ temp ∧ (temperatureFeeling temp "F").1 = "hot") := by
  rw [temperatureFeeling_F]
  by_cases h1 : temp ≤ 32
  · exact Or.inl ⟨h1, by simp [h1]⟩
  · by_cases h2 : temp ≤ 70
    · exact Or.inr (Or.inl ⟨by omega, h2, by simp [h1, h2]⟩)
    · exact Or.inr (Or.inr ⟨by omega, by simp [h1, h2]⟩)

theorem temperatureFeeling_not_F (temp : Int) (tempUnit : String) (hu : tempUnit ≠ "F") :
    temperatureFeeling temp tempUnit
      = ("", some ⟨"Unsupported temperature unit for USA: " ++ tempUnit⟩) := by
  simp [temperatureFeeling, hu, Errorf, Sprintf_unsupported]

theorem extractForecastData_nil (env : Env) (resp : Response) (data : ForecastModel)
    (hdec : env.decodeForecast resp = .ok data) (hp : data.Properties.Periods = []) :
    extractForecastData env resp
      = (("", "", "", some ⟨"No Forecast periods available"⟩),
         [.jsonDecode resp,
          .slogInfo "Successfully decoded forecast data from API response"
            [("data", .forecast data)]]) := by
  simp [extractForecastData, hdec, hp, Errorf_noPeriods]

theorem extractForecastData_cons_F (env : Env) (resp : Response) (data : ForecastModel)
    (p : Period) (rest : List Period)
    (hdec : env.decodeForecast resp = .ok data) (hp : data.Properties.Periods = p :: rest)
    (hu : p.TemperatureUnit = "F") :
    (extractForecastData env resp).1
      = (p.ShortForecast, (temperatureFeeling p.Temperature "F").1,
         (if p.Name = "Tonight" then "night" else "day"), none) := by
  obtain ⟨c, t, g, ⟨u, fg, ga, ut, vt, el, ps⟩⟩ := data
  simp only at hp
  subst hp
  simp only [extractForecastData, hdec]
  by_cases hn : p.Name = "Tonight" <;> simp [hn, hu, temperatureFeeling_F]

theorem extractForecastData_cons_not_F (env : Env) (resp : Response) (data : ForecastModel)
    (p : Period) (rest : List Period)
    (hdec : env.decodeForecast resp = .ok data) (hp : data.Properties.Periods = p :: rest)
    (hu : p.TemperatureUnit ≠ "F") :
    (extractForecastData env resp).1
      = ("", "", "", some ⟨"Unsupported temperature unit for USA: " ++ p.TemperatureUnit⟩) := by
  obtain ⟨c, t, g, ⟨u, fg, ga, ut, vt, el, ps⟩⟩ := data
  simp only at hp
  subst hp
  simp only [extractForecastData, hdec]
  simp [temperatureFeeling_not_F _ _ hu]

/-- The extractor on a payload with a first period, by the unit of that period. -/
theorem extractForecastData_cons (env : Env) (resp : Response) (data : ForecastModel)
    (p : Period) (rest : List Period)
    (hdec : env.decodeForecast resp = .ok data) (hp : data.Properties.Periods = p :: rest) :
    (extractForecastData env resp).1
      = if p.TemperatureUnit = "F" then
          (p.ShortForecast, (temperatureFeeling p.Temperature p.TemperatureUnit).1,
            (if p.Name = "Tonight" then "night" else "day"), none)
        else ("", "", "", (temperatureFeeling p.Temperature p.TemperatureUnit).2) := by
  by_cases hu : p.TemperatureUnit = "F"
  · rw [extractForecastData_cons_F env resp data p rest hdec hp hu, if_pos hu, hu]
  · rw [extractForecastData_cons_not_F env resp data p rest hdec hp hu, if_neg hu,
      temperatureFeeling_not_F _ _ hu]

theorem extractForecastData_cons_not_F_trace (env : Env) (resp : Response)
    (data : ForecastModel) (p : Period) (rest : List Period)
    (hdec : env.decodeForecast resp = .ok data) (hp : data.Properties.Periods = p :: rest)
    (hu : p.TemperatureUnit ≠ "F") :
    Event.slogError "Error getting temperature feeling"
        [("error", .err ⟨"Unsupported temperature unit for USA: " ++ p.TemperatureUnit⟩)]
      ∈ (extractForecastData env resp).2 := by
  obtain ⟨c, t, g, ⟨u, fg, ga, ut, vt, el, ps⟩⟩ := data
  simp only at hp
  subst hp
  simp only [extractForecastData, hdec]
  simp [temperatureFeeling_not_F _ _ hu]

theorem infix_of_eq_append (pre u : String) : u.data <:+: (pre ++ u).data := by
  rw [String.data_append]
  exact ⟨pre.data, [], by simp⟩

theorem not_wrapsWithContext_self (e : GoError) : ¬ WrapsWithContext e e := by
  rintro ⟨context, hne, h⟩
  apply hne
  have hd : e.msg.data = context.data ++ e.msg.data := by
    have := congrArg String.data h
    rwa [String.data_append] at this
  have hnil : context.data = [] := by
    have hl := congrArg List.length hd
    rw [List.length_append] at hl
    exact List.eq_nil_of_length_eq_zero (by omega)
  exact String.ext hnil

/-! ## Traces of the stage functions -/

theorem extractCoordinates_error (env : Env) (resp : Response) (e : GoError)
    (h : env.decodeCoordinate resp = .error e) :
    extractCoordinates env resp = (("", some e), [.jsonDecode resp]) := by
  simp [extractCoordinates, h]

theorem extractCoordinates_ok (env : Env) (resp : Response) (data : CoordinateModel)
    (h : env.decodeCoordinate resp = .ok data) :
    extractCoordinates env resp = ((data.Properties.Forecast, none), [.jsonDecode resp]) := by
  simp [extractCoordinates, h]

theorem extractForecastData_trace_no_stage (env : Env) (resp : Response) :
    stagesRun (extractForecastData env resp).2 = [] ∧
    reported (extractForecastData env resp).2 = [] := by
  cases hdec : env.decodeForecast resp with
  | error e =>
    simp [extractForecastData, hdec, stagesRun, reported, Event.isStage, Event.report]
  | ok data =>
    obtain ⟨c, t, g, ⟨u, fg, ga, ut, vt, el, ps⟩⟩ := data
    cases ps with
    | nil =>
      simp [extractForecastData, hdec, stagesRun, reported, Event.isStage, Event.report]
    | cons p rest =>
      simp only [extractForecastData, hdec]
      by_cases hn : p.Name = "Tonight" <;> by_cases hu : p.TemperatureUnit = "F" <;>
        simp [hn, hu, temperatureFeeling_F, temperatureFeeling_not_F, stagesRun, reported,
          Event.isStage, Event.report]

theorem renderResponsePage_no_stage (env : Env) (forecastData tempFeeling : String) :
    stagesRun (renderResponsePage env forecastData tempFeeling) = [] := by
  cases hp : env.parseFiles "page/responsePage.html" with
  | some e => simp [renderResponsePage, hp, stagesRun, Event.isStage]
  | none =>
    cases he : env.execute "page/responsePage.html"
      (some (Data.mk "Weather Forecast Service" forecastData tempFeeling)) <;>
      simp [renderResponsePage, hp, he, stagesRun, Event.isStage]

theorem mem_stagesRun (trace : List Event) (ev : Event) (hs : ev.isStage = true)
    (hmem : ev ∈ trace) : ev ∈ stagesRun trace :=
  List.mem_filter.mpr ⟨hmem, hs⟩

/-! ## The trace of `submitForm`, stage by stage -/

theorem submitForm_first_get_fails (env : Env) (r : Request) (e : GoError)
    (hm : r.Method = "POST") (hpf : r.ParseForm = none)
    (hget : env.httpGet 0 (Sprintf "https://api.weather.gov/points/%s,%s"
      [r.FormValue "latitude", r.FormValue "longitude"]) = .error e) :
    submitForm env r
      = [.slogInfo "Received form submission"
          [("latitude", .str (r.FormValue "latitude")),
           ("longitude", .str (r.FormValue "longitude"))],
         .httpGet (Sprintf "https://api.weather.gov/points/%s,%s"
          [r.FormValue "latitude", r.FormValue "longitude"]),
         .httpError "Error making API request" 500] := by
  simp [submitForm, hm, hpf, hget]

theorem submitForm_decode_fails (env : Env) (r : Request) (resp : Response) (e : GoError)
    (hm : r.Method = "POST") (hpf : r.ParseForm = none)
    (hget : env.httpGet 0 (Sprintf "https://api.weather.gov/points/%s,%s"
      [r.FormValue "latitude", r.FormValue "longitude"]) = .ok resp)
    (hdec : env.decodeCoordinate resp = .error e) :
    submitForm env r
      = [.slogInfo "Received form submission"
          [("latitude", .str (r.FormValue "latitude")),
           ("longitude", .str (r.FormValue "longitude"))],
         .httpGet (Sprintf "https://api.weather.gov/points/%s,%s"
          [r.FormValue "latitude", r.FormValue "longitude"]),
         .callExtractCoordinates resp, .jsonDecode resp,
         .httpError "Error extracting coordinates" 500, .bodyClose resp] := by
  simp [submitForm, hm, hpf, hget, extractCoordinates_error env resp e hdec]

theorem submitForm_second_get_fails (env : Env) (r : Request) (resp : Response)
    (data : CoordinateModel) (e : GoError)
    (hm : r.Method = "POST") (hpf : r.ParseForm = none)
    (hget : env.httpGet 0 (Sprintf "https://api.weather.gov/points/%s,%s"
      [r.FormValue "latitude", r.FormValue "longitude"]) = .ok resp)
    (hdec : env.decodeCoordinate resp = .ok data)
    (hget2 : env.httpGet 1 data.Properties.Forecast = .error e) :
    submitForm env r
      = [.slogInfo "Received form submission"
          [("latitude", .str (r.FormValue "latitude")),
           ("longitude", .str (r.FormValue "longitude"))],
         .httpGet (Sprintf "https://api.weather.gov/points/%s,%s"
          [r.FormValue "latitude", r.FormValue "longitude"]),
         .callExtractCoordinates resp, .jsonDecode resp,
         .httpGet data.Properties.Forecast,
         .httpError "Error making second API request" 500, .bodyClose resp] := by
  simp [submitForm, hm, hpf, hget, extractCoordinates_ok env resp data hdec, hget2]

theorem submitForm_extraction_fails (env : Env) (r : Request) (resp resp2 : Response)
    (data : CoordinateModel) (e : GoError)
    (hm : r.Method = "POST") (hpf : r.ParseForm = none)
    (hget : env.httpGet 0 (Sprintf "https://api.weather.gov/points/%s,%s"
      [r.FormValue "latitude", r.FormValue "longitude"]) = .ok resp)
    (hdec : env.decodeCoordinate resp = .ok data)
    (hget2 : env.httpGet 1 data.Properties.Forecast = .ok resp2)
    (hex : (extractForecastData env resp2).1.err = some e) :
    submitForm env r
      = [.slogInfo "Received form submission"
          [("latitude", .str (r.FormValue "latitude")),
           ("longitude", .str (r.FormValue "longitude"))],
         .httpGet (Sprintf "https://api.weather.gov/points/%s,%s"
          [r.FormValue "latitude", r.FormValue "longitude"]),
         .callExtractCoordinates resp, .jsonDecode resp,
         .httpGet data.Properties.Forecast, .callExtractForecastData resp2] ++
        (extractForecastData env resp2).2 ++
        [.slogError "Error extracting forecast data" [("error", .err e)],
         .httpError "Error extracting forecast data" 500,
         .bodyClose resp2, .bodyClose resp] := by
  rcases hx : extractForecastData env resp2 with ⟨⟨a, b, c, eo⟩, t2⟩
  rw [hx] at hex
  simp only [ExtractResult.err] at hex
  subst hex
  simp [submitForm, hm, hpf, hget, extractCoordinates_ok env resp data hdec, hget2, hx]

theorem submitForm_all_succeed (env : Env) (r : Request) (resp resp2 : Response)
    (data : CoordinateModel)
    (hm : r.Method = "POST") (hpf : r.ParseForm = none)
    (hget : env.httpGet 0 (Sprintf "https://api.weather.gov/points/%s,%s"
      [r.FormValue "latitude", r.FormValue "longitude"]) = .ok resp)
    (hdec : env.decodeCoordinate resp = .ok data)
    (hget2 : env.httpGet 1 data.Properties.Forecast = .ok resp2)
    (hex : (extractForecastData env resp2).1.err = none) :
    submitForm env r
      = [.slogInfo "Received form submission"
          [("latitude", .str (r.FormValue "latitude")),
           ("longitude", .str (r.FormValue "longitude"))],
         .httpGet (Sprintf "https://api.weather.gov/points/%s,%s"
          [r.FormValue "latitude", r.FormValue "longitude"]),
         .callExtractCoordinates resp, .jsonDecode resp,
         .httpGet data.Properties.Forecast, .callExtractForecastData resp2] ++
        (extractForecastData env resp2).2 ++
        [.callRenderResponsePage (extractForecastData env resp2).1.shortForecast
          (extractForecastData env resp2).1.tempFeeling] ++
        renderResponsePage env (extractForecastData env resp2).1.shortForecast
          (extractForecastData env resp2).1.tempFeeling ++
        [.bodyClose resp2, .bodyClose resp] := by
  rcases hx : extractForecastData env resp2 with ⟨⟨a, b, c, eo⟩, t2⟩
  rw [hx] at hex
  simp only [ExtractResult.err] at hex
  subst hex
  simp [submitForm, hm, hpf, hget, extractCoordinates_ok env resp data hdec, hget2, hx,
    ExtractResult.shortForecast, ExtractResult.tempFeeling]

theorem submitForm_first_url (env : Env) (r : Request)
    (hm : r.Method = "POST") (hpf : r.ParseForm = none) :
    (requestedURLs (submitForm env r)).head?
      = some (Sprintf "https://api.weather.gov/points/%s,%s"
          [r.FormValue "latitude", r.FormValue "longitude"]) := by
  cases hget : env.httpGet 0 (Sprintf "https://api.weather.gov/points/%s,%s"
      [r.FormValue "latitude", r.FormValue "longitude"]) with
  | error e =>
    rw [submitForm_first_get_fails env r e hm hpf hget]
    simp [requestedURLs, Event.url]
  | ok resp =>
    cases hdec : env.decodeCoordinate resp with
    | error e =>
      rw [submitForm_decode_fails env r resp e hm hpf hget hdec]
      simp [requestedURLs, Event.url]
    | ok data =>
      cases hget2 : env.httpGet 1 data.Properties.Forecast with
      | error e =>
        rw [submitForm_second_get_fails env r resp data e hm hpf hget hdec hget2]
        simp [requestedURLs, Event.url]
      | ok resp2 =>
        cases hex : (extractForecastData env resp2).1.err with
        | some e =>
          rw [submitForm_extraction_fails env r resp resp2 data e hm hpf hget hdec hget2 hex]
          simp [requestedURLs, Event.url]
        | none =>
          rw [submitForm_all_succeed env r resp resp2 data hm hpf hget hdec hget2 hex]
          simp [requestedURLs, Event.url]

theorem append_cons_inj_of_not_mem (c : Char) :
    ∀ (a a' b b' : List Char), c ∉ a → c ∉ a' → a ++ c :: b = a' ++ c :: b' →
      a = a' ∧ b = b'
  | [], [], _, _, _, _, h => by simpa using h
  | [], x :: a', b, b', _, h', h => by
    simp only [List.nil_append, List.cons_append, List.cons.injEq] at h
    exact absurd (h.1 ▸ List.mem_cons_self x a') h'
  | x :: a, [], b, b', hc, _, h => by
    simp only [List.nil_append, List.cons_append, List.cons.injEq] at h
    exact absurd (h.1 ▸ List.mem_cons_self x a) hc
  | x :: a, y :: a', b, b', hc, hc', h => by
    simp only [List.cons_append, List.cons.injEq] at h
    have ih := append_cons_inj_of_not_mem c a a' b b'
      (fun hm => hc (List.mem_cons_of_mem x hm)) (fun hm => hc' (List.mem_cons_of_mem y hm)) h.2
    exact ⟨by rw [h.1, ih.1], ih.2⟩

theorem points_url_injective (latitude longitude latitude' longitude' : String)
    (hc : ',' ∉ latitude.data) (hc' : ',' ∉ latitude'.data)
    (h : Sprintf "https://api.weather.gov/points/%s,%s" [latitude, longitude]
      = Sprintf "https://api.weather.gov/points/%s,%s" [latitude', longitude']) :
    latitude = latitude' ∧ longitude = longitude' := by
  rw [Sprintf_points, Sprintf_points] at h
  have hd := congrArg String.data h
  simp only [String.data_append, List.append_assoc] at hd
  have hd' := List.append_cancel_left hd
  have := append_cons_inj_of_not_mem ',' _ _ _ _ hc hc' hd'
  exact ⟨String.ext this.1, String.ext this.2⟩

/-! ## Claims -/

/-- C1: for every integer temperature `t`, `temperatureFeeling t "F"` returns without
error; its result is `cold` iff `t ≤ 32`, `moderate` iff `33 ≤ t ≤ 70` and `hot` iff
`t ≥ 71`; 32 gives cold, 33 and 70 give moderate, 71 gives hot. -/
theorem temperatureFeeling_fahrenheit_buckets (t : Int) :
    (temperatureFeeling t "F").2 = none ∧
    ((temperatureFeeling t "F").1 = "cold" ↔ t ≤ 32) ∧
    ((temperatureFeeling t "F").1 = "moderate" ↔ 33 ≤ t ∧ t ≤ 70) ∧
    ((temperatureFeeling t "F").1 = "hot" ↔ 71 ≤ t) ∧
    temperatureFeeling 32 "F" = ("cold", none) ∧
    temperatureFeeling 33 "F" = ("moderate", none) ∧
    temperatureFeeling 70 "F" = ("moderate", none) ∧
    temperatureFeeling 71 "F" = ("hot", none) := by
  have hcm : ("cold" : String) ≠ "moderate" := by decide
  have hch : ("cold" : String) ≠ "hot" := by decide
  have hmh : ("moderate" : String) ≠ "hot" := by decide
  refine ⟨by rw [temperatureFeeling_F], ?_, ?_, ?_, by decide, by decide, by decide, by decide⟩
  · rcases temperatureFeeling_F_cases t with ⟨h, hv⟩ | ⟨h, h', hv⟩ | ⟨h, hv⟩ <;> rw [hv]
    · exact ⟨fun _ => h, fun _ => rfl⟩
    · exact ⟨fun e => absurd e.symm hcm, fun _ => by omega⟩
    · exact ⟨fun e => absurd e.symm hch, fun _ => by omega⟩
  · rcases temperatureFeeling_F_cases t with ⟨h, hv⟩ | ⟨h, h', hv⟩ | ⟨h, hv⟩ <;> rw [hv]
    · exact ⟨fun e => absurd e hcm, fun _ => by omega⟩
    · exact ⟨fun _ => ⟨h, h'⟩, fun _ => rfl⟩
    · exact ⟨fun e => absurd e.symm hmh, fun _ => by omega⟩
  · rcases temperatureFeeling_F_cases t with ⟨h, hv⟩ | ⟨h, h', hv⟩ | ⟨h, hv⟩ <;> rw [hv]
    · exact ⟨fun e => absurd e hch, fun _ => by omega⟩
    · exact ⟨fun e => absurd e hmh, fun _ => by omega⟩
    · exact ⟨fun _ => h, fun _ => rfl⟩

/-- C2: for every temperature `t` and unit string `u`, `temperatureFeeling t u` fails
iff `u` is not exactly `"F"`; when it fails the feeling is the empty string and the
error message is `Unsupported temperature unit for USA: ` followed by `u`, so it
contains `u`; for `u = "C"` the message contains `C`. -/
theorem temperatureFeeling_fails_iff_unsupported (t : Int) (u : String) :
    ((temperatureFeeling t u).2 ≠ none ↔ u ≠ "F") ∧
    (∀ e, (temperatureFeeling t u).2 = some e →
      (temperatureFeeling t u).1 = "" ∧
      e.msg = "Unsupported temperature unit for USA: " ++ u ∧
      u.data <:+: e.msg.data) ∧
    (∃ e, (temperatureFeeling t "C").2 = some e ∧ "C".data <:+: e.msg.data) := by
  refine ⟨?_, ?_, ?_⟩
  · by_cases hu : u = "F"
    · subst hu
      simp [temperatureFeeling_F]
    · simp [temperatureFeeling_not_F t u hu, hu]
  · intro e he
    by_cases hu : u = "F"
    · subst hu
      simp [temperatureFeeling_F] at he
    · rw [temperatureFeeling_not_F t u hu] at he ⊢
      simp only [Option.some.injEq] at he
      subst he
      exact ⟨rfl, rfl, infix_of_eq_append _ u⟩
  · have hC : ("C" : String) ≠ "F" := by decide
    refine ⟨⟨"Unsupported temperature unit for USA: " ++ "C"⟩, ?_, infix_of_eq_append _ "C"⟩
    rw [temperatureFeeling_not_F t "C" hC]

/-- C3: for every decoded forecast payload whose period sequence is empty, whatever
its other fields hold, `extractForecastData` returns three empty strings and the error
`No Forecast periods available`, and its trace holds no call of `temperatureFeeling`. -/
theorem extractForecastData_no_periods (env : Env) (resp : Response) (data : ForecastModel)
    (hdec : env.decodeForecast resp = .ok data) (hp : data.Properties.Periods = []) :
    (extractForecastData env resp).1
      = ("", "", "", some (GoError.mk "No Forecast periods available")) ∧
    ∀ temp tempUnit, Event.callTemperatureFeeling temp tempUnit
      ∉ (extractForecastData env resp).2 := by
  rw [extractForecastData_nil env resp data hdec hp]
  exact ⟨rfl, fun temp tempUnit => by simp⟩

/-- Witness of C3 at the payload without periods. -/
theorem extractForecastData_no_periods_witness :
    (envOf (payloadOf [])).decodeForecast sampleResponse = .ok (payloadOf []) ∧
    (payloadOf []).Properties.Periods = [] ∧
    (extractForecastData (envOf (payloadOf [])) sampleResponse).1
      = ("", "", "", some (GoError.mk "No Forecast periods available")) ∧
    ∀ temp tempUnit, Event.callTemperatureFeeling temp tempUnit
      ∉ (extractForecastData (envOf (payloadOf [])) sampleResponse).2 :=
  ⟨rfl, rfl, extractForecastData_no_periods (envOf (payloadOf [])) sampleResponse
    (payloadOf []) rfl rfl⟩

/-- C4 as stated fails: the first period is named `Tonight` but its unit is `C`, and
the returned time of day is the empty string, not `night`. -/
theorem extractForecastData_tonight_celsius_not_night :
    (envOf (payloadOf [periodOf "Tonight" 20 "C" "Clear"])).decodeForecast sampleResponse
      = .ok (payloadOf [periodOf "Tonight" 20 "C" "Clear"]) ∧
    (payloadOf [periodOf "Tonight" 20 "C" "Clear"]).Properties.Periods.head?.map Period.Name
      = some "Tonight" ∧
    (extractForecastData (envOf (payloadOf [periodOf "Tonight" 20 "C" "Clear"]))
      sampleResponse).1.timeOfDay = "" ∧
    (extractForecastData (envOf (payloadOf [periodOf "Tonight" 20 "C" "Clear"]))
      sampleResponse).1.timeOfDay ≠ "night" := by
  have hu : (periodOf "Tonight" 20 "C" "Clear").TemperatureUnit ≠ "F" := by decide
  have h := extractForecastData_cons_not_F
    (envOf (payloadOf [periodOf "Tonight" 20 "C" "Clear"])) sampleResponse
    (payloadOf [periodOf "Tonight" 20 "C" "Clear"]) (periodOf "Tonight" 20 "C" "Clear") []
    rfl rfl hu
  refine ⟨rfl, rfl, ?_, ?_⟩
  · rw [h]; rfl
  · rw [h]; decide

/-- C4, amended: for every decoded forecast payload whose first period has the unit
`"F"`, `extractForecastData` yields time of day `night` when the first period's name is
exactly `Tonight` and `day` for any other name, among them `tonight`, `Tonight ` and
the empty string. -/
theorem extractForecastData_timeOfDay (env : Env) (resp : Response) (data : ForecastModel)
    (p : Period) (rest : List Period)
    (hdec : env.decodeForecast resp = .ok data) (hp : data.Properties.Periods = p :: rest)
    (hu : p.TemperatureUnit = "F") :
    (p.Name = "Tonight" → (extractForecastData env resp).1.timeOfDay = "night") ∧
    (p.Name ≠ "Tonight" → (extractForecastData env resp).1.timeOfDay = "day") ∧
    ((p.Name = "tonight" ∨ p.Name = "Tonight " ∨ p.Name = "") →
      (extractForecastData env resp).1.timeOfDay = "day") := by
  rw [extractForecastData_cons_F env resp data p rest hdec hp hu]
  refine ⟨fun h => ?_, fun h => ?_, fun h => ?_⟩
  · simp [ExtractResult.timeOfDay, h]
  · simp [ExtractResult.timeOfDay, h]
  · have hne : p.Name ≠ "Tonight" := by
      rcases h with h | h | h <;> rw [h] <;> decide
    simp [ExtractResult.timeOfDay, hne]

/-- Witness of amended C4 at a first period named `Tonight` with unit `F`. -/
theorem extractForecastData_timeOfDay_witness :
    (extractForecastData (envOf (payloadOf [periodOf "Tonight" 20 "F" "Clear"]))
      sampleResponse).1.timeOfDay = "night" :=
  (extractForecastData_timeOfDay (envOf (payloadOf [periodOf "Tonight" 20 "F" "Clear"]))
    sampleResponse (payloadOf [periodOf "Tonight" 20 "F" "Clear"])
    (periodOf "Tonight" 20 "F" "Clear") [] rfl rfl rfl).1 rfl

/-- C5: for every decoded forecast payload on which `extractForecastData` succeeds,
the period sequence has a first period, the returned short description is that period's
`ShortForecast` and the returned feeling is the result of `temperatureFeeling` on its
temperature and unit; a first period (`Today`, 75, `F`, `Sunny`) yields `Sunny` and
`hot`, and (`Tonight`, 20, `F`, `Clear`) yields `Clear`, `cold` and time of day `night`. -/
theorem extractForecastData_success_values (env : Env) (resp : Response)
    (data : ForecastModel) (hdec : env.decodeForecast resp = .ok data)
    (hok : (extractForecastData env resp).1.err = none) :
    ∃ p rest, data.Properties.Periods = p :: rest ∧
      (extractForecastData env resp).1.shortForecast = p.ShortForecast ∧
      (extractForecastData env resp).1.tempFeeling
        = (temperatureFeeling p.Temperature p.TemperatureUnit).1 ∧
      (p.Name = "Today" → p.Temperature = 75 → p.TemperatureUnit = "F" →
        p.ShortForecast = "Sunny" →
        (extractForecastData env resp).1.shortForecast = "Sunny" ∧
        (extractForecastData env resp).1.tempFeeling = "hot") ∧
      (p.Name = "Tonight" → p.Temperature = 20 → p.TemperatureUnit = "F" →
        p.ShortForecast = "Clear" →
        (extractForecastData env resp).1.shortForecast = "Clear" ∧
        (extractForecastData env resp).1.tempFeeling = "cold" ∧
        (extractForecastData env resp).1.timeOfDay = "night") := by
  cases hps : data.Properties.Periods with
  | nil =>
    rw [extractForecastData_nil env resp data hdec hps] at hok
    simp [ExtractResult.err] at hok
  | cons p rest =>
    refine ⟨p, rest, rfl, ?_⟩
    by_cases hu : p.TemperatureUnit = "F"
    · rw [extractForecastData_cons_F env resp data p rest hdec hps hu, hu]
      refine ⟨rfl, rfl, ?_, ?_⟩
      · intro _ ht _ hs
        rw [ht, hs]
        refine ⟨rfl, ?_⟩
        show (temperatureFeeling 75 "F").1 = "hot"
        decide
      · intro hn ht _ hs
        rw [ht, hs, hn]
        refine ⟨rfl, ?_, ?_⟩
        · show (temperatureFeeling 20 "F").1 = "cold"
          decide
        · show (if ("Tonight" : String) = "Tonight" then "night" else "day") = "night"
          decide
    · rw [extractForecastData_cons_not_F env resp data p rest hdec hps hu] at hok
      simp [ExtractResult.err] at hok

/-- Witness of C5 at the first period (`Today`, 75, `F`, `Sunny`). -/
theorem extractForecastData_success_values_witness :
    (extractForecastData (envOf (payloadOf [periodOf "Today" 75 "F" "Sunny"]))
      sampleResponse).1.err = none ∧
    ∃ p rest, (payloadOf [periodOf "Today" 75 "F" "Sunny"]).Properties.Periods = p :: rest ∧
      (extractForecastData (envOf (payloadOf [periodOf "Today" 75 "F" "Sunny"]))
        sampleResponse).1.shortForecast = p.ShortForecast ∧
      (extractForecastData (envOf (payloadOf [periodOf "Today" 75 "F" "Sunny"]))
        sampleResponse).1.tempFeeling
        = (temperatureFeeling p.Temperature p.TemperatureUnit).1 := by
  have hok : (extractForecastData (envOf (payloadOf [periodOf "Today" 75 "F" "Sunny"]))
      sampleResponse).1.err = none := by
    rw [extractForecastData_cons_F (envOf (payloadOf [periodOf "Today" 75 "F" "Sunny"]))
      sampleResponse (payloadOf [periodOf "Today" 75 "F" "Sunny"])
      (periodOf "Today" 75 "F" "Sunny") [] rfl rfl rfl]
    rfl
  obtain ⟨p, rest, h1, h2, h3, _⟩ := extractForecastData_success_values
    (envOf (payloadOf [periodOf "Today" 75 "F" "Sunny"])) sampleResponse
    (payloadOf [periodOf "Today" 75 "F" "Sunny"]) rfl hok
  exact ⟨hok, p, rest, h1, h2, h3⟩

/-- C6 as stated fails: for a first period with unit `C` the error returned by
`extractForecastData` is the classifier's error itself; it is not that error wrapped
with a context. -/
theorem extractForecastData_error_not_wrapped :
    ∃ outer inner,
      (extractForecastData (envOf (payloadOf [periodOf "Today" 75 "C" "Sunny"]))
        sampleResponse).1.err = some outer ∧
      (temperatureFeeling 75 "C").2 = some inner ∧
      outer = inner ∧ ¬ WrapsWithContext outer inner := by
  have hu : (periodOf "Today" 75 "C" "Sunny").TemperatureUnit ≠ "F" := by decide
  refine ⟨⟨"Unsupported temperature unit for USA: " ++ "C"⟩,
    ⟨"Unsupported temperature unit for USA: " ++ "C"⟩, ?_, ?_, rfl,
    not_wrapsWithContext_self _⟩
  · rw [extractForecastData_cons_not_F
      (envOf (payloadOf [periodOf "Today" 75 "C" "Sunny"])) sampleResponse
      (payloadOf [periodOf "Today" 75 "C" "Sunny"]) (periodOf "Today" 75 "C" "Sunny") []
      rfl rfl hu]
    rfl
  · rw [temperatureFeeling_not_F 75 "C" (by decide)]

/-- C6, amended: for every decoded forecast payload with a first period whose
temperature and unit make `temperatureFeeling` fail with error `e`, `extractForecastData`
returns three empty strings and that same error `e`, not wrapped; the message of `e`
is `Unsupported temperature unit for USA: ` followed by the unit, so it contains the
unit; the failing stage is named in the log record `Error getting temperature feeling`
only. -/
theorem extractForecastData_propagates_classifier_error (env : Env) (resp : Response)
    (data : ForecastModel) (p : Period) (rest : List Period) (e : GoError)
    (hdec : env.decodeForecast resp = .ok data) (hp : data.Properties.Periods = p :: rest)
    (he : (temperatureFeeling p.Temperature p.TemperatureUnit).2 = some e) :
    (extractForecastData env resp).1 = ("", "", "", some e) ∧
    ¬ (∃ outer, (extractForecastData env resp).1.err = some outer ∧
        WrapsWithContext outer e) ∧
    e.msg = "Unsupported temperature unit for USA: " ++ p.TemperatureUnit ∧
    p.TemperatureUnit.data <:+: e.msg.data ∧
    Event.slogError "Error getting temperature feeling" [("error", .err e)]
      ∈ (extractForecastData env resp).2 := by
  have hu : p.TemperatureUnit ≠ "F" := by
    intro hF
    rw [hF, temperatureFeeling_F] at he
    simp at he
  have hmsg : e = ⟨"Unsupported temperature unit for USA: " ++ p.TemperatureUnit⟩ := by
    rw [temperatureFeeling_not_F _ _ hu] at he
    simpa using he.symm
  subst hmsg
  have hres := extractForecastData_cons_not_F env resp data p rest hdec hp hu
  refine ⟨hres, ?_, rfl, infix_of_eq_append _ _, ?_⟩
  · rintro ⟨outer, hout, hw⟩
    rw [hres] at hout
    simp only [ExtractResult.err, Option.some.injEq] at hout
    subst hout
    exact not_wrapsWithContext_self _ hw
  · exact extractForecastData_cons_not_F_trace env resp data p rest hdec hp hu

/-- Witness of amended C6 at the first period (`Today`, 75, `C`, `Sunny`). -/
theorem extractForecastData_propagates_classifier_error_witness :
    (temperatureFeeling 75 "C").2
      = some (GoError.mk "Unsupported temperature unit for USA: C") ∧
    (extractForecastData (envOf (payloadOf [periodOf "Today" 75 "C" "Sunny"]))
      sampleResponse).1
      = ("", "", "", some (GoError.mk "Unsupported temperature unit for USA: C")) :=
  ⟨by decide,
   (extractForecastData_propagates_classifier_error
    (envOf (payloadOf [periodOf "Today" 75 "C" "Sunny"])) sampleResponse
    (payloadOf [periodOf "Today" 75 "C" "Sunny"]) (periodOf "Today" 75 "C" "Sunny") []
    (GoError.mk "Unsupported temperature unit for USA: C") rfl rfl (by decide)).1⟩

/-- C7: the extraction step reads only the first period: two decoded forecast payloads
with non-empty period sequences whose first periods agree on name, temperature, unit
and short forecast give the same short description, feeling, time of day and error,
however the later periods and the other payload fields differ. -/
theorem extractForecastData_reads_first_period_only (env env' : Env) (resp resp' : Response)
    (data data' : ForecastModel) (p p' : Period) (rest rest' : List Period)
    (hdec : env.decodeForecast resp = .ok data)
    (hdec' : env'.decodeForecast resp' = .ok data')
    (hp : data.Properties.Periods = p :: rest)
    (hp' : data'.Properties.Periods = p' :: rest')
    (hname : p.Name = p'.Name) (htemp : p.Temperature = p'.Temperature)
    (hunit : p.TemperatureUnit = p'.TemperatureUnit)
    (hshort : p.ShortForecast = p'.ShortForecast) :
    (extractForecastData env resp).1 = (extractForecastData env' resp').1 := by
  rw [extractForecastData_cons env resp data p rest hdec hp,
    extractForecastData_cons env' resp' data' p' rest' hdec' hp',
    hname, htemp, hunit, hshort]

/-- Witness of C7: two payloads that agree on the four fields of the first period and
differ in the number of periods. -/
theorem extractForecastData_reads_first_period_only_witness :
    payloadOf [periodOf "Today" 75 "F" "Sunny"]
      ≠ payloadOf [periodOf "Today" 75 "F" "Sunny", periodOf "Tonight" 20 "C" "Clear"] ∧
    (extractForecastData (envOf (payloadOf [periodOf "Today" 75 "F" "Sunny"]))
      sampleResponse).1
      = (extractForecastData
          (envOf (payloadOf
            [periodOf "Today" 75 "F" "Sunny", periodOf "Tonight" 20 "C" "Clear"]))
          (Response.mk 404 "other")).1 :=
  ⟨by decide,
   extractForecastData_reads_first_period_only
    (envOf (payloadOf [periodOf "Today" 75 "F" "Sunny"]))
    (envOf (payloadOf [periodOf "Today" 75 "F" "Sunny", periodOf "Tonight" 20 "C" "Clear"]))
    sampleResponse (Response.mk 404 "other")
    (payloadOf [periodOf "Today" 75 "F" "Sunny"])
    (payloadOf [periodOf "Today" 75 "F" "Sunny", periodOf "Tonight" 20 "C" "Clear"])
    (periodOf "Today" 75 "F" "Sunny") (periodOf "Today" 75 "F" "Sunny") []
    [periodOf "Tonight" 20 "C" "Clear"] rfl rfl rfl rfl rfl rfl rfl rfl⟩

/-- C10: for every decoded forecast payload, `extractForecastData` succeeds iff the
period sequence has a first period whose unit is exactly `"F"`; on every failure the
three returned strings are empty; on every success the feeling is one of `cold`,
`moderate`, `hot` and the time of day is one of `day`, `night`. -/
theorem extractForecastData_success_iff (env : Env) (resp : Response) (data : ForecastModel)
    (hdec : env.decodeForecast resp = .ok data) :
    ((extractForecastData env resp).1.err = none ↔
      ∃ p rest, data.Properties.Periods = p :: rest ∧ p.TemperatureUnit = "F") ∧
    ((extractForecastData env resp).1.err ≠ none →
      (extractForecastData env resp).1.shortForecast = "" ∧
      (extractForecastData env resp).1.tempFeeling = "" ∧
      (extractForecastData env resp).1.timeOfDay = "") ∧
    ((extractForecastData env resp).1.err = none →
      (extractForecastData env resp).1.tempFeeling ∈ ["cold", "moderate", "hot"] ∧
      (extractForecastData env resp).1.timeOfDay ∈ ["day", "night"]) := by
  cases hps : data.Properties.Periods with
  | nil =>
    rw [extractForecastData_nil env resp data hdec hps]
    simp [ExtractResult.err, ExtractResult.shortForecast, ExtractResult.tempFeeling,
      ExtractResult.timeOfDay]
  | cons p rest =>
    by_cases hu : p.TemperatureUnit = "F"
    · rw [extractForecastData_cons_F env resp data p rest hdec hps hu]
      refine ⟨⟨fun _ => ⟨p, rest, rfl, hu⟩, fun _ => rfl⟩, fun h => absurd rfl h, fun _ => ?_⟩
      constructor
      · show (temperatureFeeling p.Temperature "F").1 ∈ ["cold", "moderate", "hot"]
        rcases temperatureFeeling_F_cases p.Temperature with ⟨_, hv⟩ | ⟨_, _, hv⟩ | ⟨_, hv⟩ <;>
          rw [hv] <;> simp
      · show (if p.Name = "Tonight" then "night" else "day") ∈ ["day", "night"]
        by_cases hn : p.Name = "Tonight" <;> simp [hn]
    · rw [extractForecastData_cons_not_F env resp data p rest hdec hps hu]
      refine ⟨⟨fun h => ?_, fun h => ?_⟩, fun _ => ⟨rfl, rfl, rfl⟩, fun h => ?_⟩
      · simp [ExtractResult.err] at h
      · obtain ⟨q, rest', hq, hqu⟩ := h
        simp only [List.cons.injEq] at hq
        exact absurd (hq.1 ▸ hqu) hu
      · simp [ExtractResult.err] at h

/-- Witness of C10 at the first period (`Tonight`, 20, `F`, `Clear`). -/
theorem extractForecastData_success_iff_witness :
    (envOf (payloadOf [periodOf "Tonight" 20 "F" "Clear"])).decodeForecast sampleResponse
      = .ok (payloadOf [periodOf "Tonight" 20 "F" "Clear"]) ∧
    (extractForecastData (envOf (payloadOf [periodOf "Tonight" 20 "F" "Clear"]))
      sampleResponse).1.err = none :=
  ⟨rfl,
   (extractForecastData_success_iff (envOf (payloadOf [periodOf "Tonight" 20 "F" "Clear"]))
    sampleResponse (payloadOf [periodOf "Tonight" 20 "F" "Clear"]) rfl).1.mpr
    ⟨periodOf "Tonight" 20 "F" "Clear", [], rfl, rfl⟩⟩

/-- C8: the pipeline of `submitForm` is fail-fast. On a `POST` request whose form
parses, with `link` the points-lookup URL: the first stage that errs (points lookup,
URL extraction, forecast fetch, forecast extraction) fixes the one failure reported to
the client, and the stages run are exactly those up to it; when the second `http.Get`
fails the fetch failure is reported and `extractForecastData` is not called; when every
stage succeeds `renderResponsePage` is called with the extractor's short description
and feeling; and `renderResponsePage` is called only then, with those values. -/
theorem submitForm_fail_fast (env : Env) (r : Request)
    (hm : r.Method = "POST") (hpf : r.ParseForm = none) :
    (∀ e, env.httpGet 0 (Sprintf "https://api.weather.gov/points/%s,%s"
        [r.FormValue "latitude", r.FormValue "longitude"]) = .error e →
      stagesRun (submitForm env r)
        = [.httpGet (Sprintf "https://api.weather.gov/points/%s,%s"
            [r.FormValue "latitude", r.FormValue "longitude"])] ∧
      reported (submitForm env r) = [("Error making API request", 500)]) ∧
    (∀ resp e, env.httpGet 0 (Sprintf "https://api.weather.gov/points/%s,%s"
        [r.FormValue "latitude", r.FormValue "longitude"]) = .ok resp →
      env.decodeCoordinate resp = .error e →
      stagesRun (submitForm env r)
        = [.httpGet (Sprintf "https://api.weather.gov/points/%s,%s"
            [r.FormValue "latitude", r.FormValue "longitude"]),
           .callExtractCoordinates resp] ∧
      reported (submitForm env r) = [("Error extracting coordinates", 500)]) ∧
    (∀ resp data e, env.httpGet 0 (Sprintf "https://api.weather.gov/points/%s,%s"
        [r.FormValue "latitude", r.FormValue "longitude"]) = .ok resp →
      env.decodeCoordinate resp = .ok data →
      env.httpGet 1 data.Properties.Forecast = .error e →
      stagesRun (submitForm env r)
        = [.httpGet (Sprintf "https://api.weather.gov/points/%s,%s"
            [r.FormValue "latitude", r.FormValue "longitude"]),
           .callExtractCoordinates resp, .httpGet data.Properties.Forecast] ∧
      reported (submitForm env r) = [("Error making second API request", 500)] ∧
      (∀ resp2, Event.callExtractForecastData resp2 ∉ submitForm env r) ∧
      (∀ temp tempUnit, Event.callTemperatureFeeling temp tempUnit ∉ submitForm env r)) ∧
    (∀ resp data resp2 e, env.httpGet 0 (Sprintf "https://api.weather.gov/points/%s,%s"
        [r.FormValue "latitude", r.FormValue "longitude"]) = .ok resp →
      env.decodeCoordinate resp = .ok data →
      env.httpGet 1 data.Properties.Forecast = .ok resp2 →
      (extractForecastData env resp2).1.err = some e →
      stagesRun (submitForm env r)
        = [.httpGet (Sprintf "https://api.weather.gov/points/%s,%s"
            [r.FormValue "latitude", r.FormValue "longitude"]),
           .callExtractCoordinates resp, .httpGet data.Properties.Forecast,
           .callExtractForecastData resp2] ∧
      reported (submitForm env r) = [("Error extracting forecast data", 500)]) ∧
    (∀ resp data resp2, env.httpGet 0 (Sprintf "https://api.weather.gov/points/%s,%s"
        [r.FormValue "latitude", r.FormValue "longitude"]) = .ok resp →
      env.decodeCoordinate resp = .ok data →
      env.httpGet 1 data.Properties.Forecast = .ok resp2 →
      (extractForecastData env resp2).1.err = none →
      stagesRun (submitForm env r)
        = [.httpGet (Sprintf "https://api.weather.gov/points/%s,%s"
            [r.FormValue "latitude", r.FormValue "longitude"]),
           .callExtractCoordinates resp, .httpGet data.Properties.Forecast,
           .callExtractForecastData resp2,
           .callRenderResponsePage (extractForecastData env resp2).1.shortForecast
            (extractForecastData env resp2).1.tempFeeling]) ∧
    (∀ forecastData tempFeeling,
      Event.callRenderResponsePage forecastData tempFeeling ∈ submitForm env r →
      ∃ resp data resp2, env.httpGet 0 (Sprintf "https://api.weather.gov/points/%s,%s"
          [r.FormValue "latitude", r.FormValue "longitude"]) = .ok resp ∧
        env.decodeCoordinate resp = .ok data ∧
        env.httpGet 1 data.Properties.Forecast = .ok resp2 ∧
        (extractForecastData env resp2).1.err = none ∧
        forecastData = (extractForecastData env resp2).1.shortForecast ∧
        tempFeeling = (extractForecastData env resp2).1.tempFeeling) := by
  have c1 : ∀ e, env.httpGet 0 (Sprintf "https://api.weather.gov/points/%s,%s"
        [r.FormValue "latitude", r.FormValue "longitude"]) = .error e →
      stagesRun (submitForm env r)
        = [.httpGet (Sprintf "https://api.weather.gov/points/%s,%s"
            [r.FormValue "latitude", r.FormValue "longitude"])] ∧
      reported (submitForm env r) = [("Error making API request", 500)] := by
    intro e hget
    rw [submitForm_first_get_fails env r e hm hpf hget]
    simp [stagesRun, reported, Event.isStage, Event.report]
  have c2 : ∀ resp e, env.httpGet 0 (Sprintf "https://api.weather.gov/points/%s,%s"
        [r.FormValue "latitude", r.FormValue "longitude"]) = .ok resp →
      env.decodeCoordinate resp = .error e →
      stagesRun (submitForm env r)
        = [.httpGet (Sprintf "https://api.weather.gov/points/%s,%s"
            [r.FormValue "latitude", r.FormValue "longitude"]),
           .callExtractCoordinates resp] ∧
      reported (submitForm env r) = [("Error extracting coordinates", 500)] := by
    intro resp e hget hdec
    rw [submitForm_decode_fails env r resp e hm hpf hget hdec]
    simp [stagesRun, reported, Event.isStage, Event.report]
  have c3 : ∀ resp data e, env.httpGet 0 (Sprintf "https://api.weather.gov/points/%s,%s"
        [r.FormValue "latitude", r.FormValue "longitude"]) = .ok resp →
      env.decodeCoordinate resp = .ok data →
      env.httpGet 1 data.Properties.Forecast = .error e →
      stagesRun (submitForm env r)
        = [.httpGet (Sprintf "https://api.weather.gov/points/%s,%s"
            [r.FormValue "latitude", r.FormValue "longitude"]),
           .callExtractCoordinates resp, .httpGet data.Properties.Forecast] ∧
      reported (submitForm env r) = [("Error making second API request", 500)] ∧
      (∀ resp2, Event.callExtractForecastData resp2 ∉ submitForm env r) ∧
      (∀ temp tempUnit, Event.callTemperatureFeeling temp tempUnit ∉ submitForm env r) := by
    intro resp data e hget hdec hget2
    rw [submitForm_second_get_fails env r resp data e hm hpf hget hdec hget2]
    simp [stagesRun, reported, Event.isStage, Event.report]
  have c4 : ∀ resp data resp2 e,
      env.httpGet 0 (Sprintf "https://api.weather.gov/points/%s,%s"
        [r.FormValue "latitude", r.FormValue "longitude"]) = .ok resp →
      env.decodeCoordinate resp = .ok data →
      env.httpGet 1 data.Properties.Forecast = .ok resp2 →
      (extractForecastData env resp2).1.err = some e →
      stagesRun (submitForm env r)
        = [.httpGet (Sprintf "https://api.weather.gov/points/%s,%s"
            [r.FormValue "latitude", r.FormValue "longitude"]),
           .callExtractCoordinates resp, .httpGet data.Properties.Forecast,
           .callExtractForecastData resp2] ∧
      reported (submitForm env r) = [("Error extracting forecast data", 500)] := by
    intro resp data resp2 e hget hdec hget2 hex
    have hs : List.filter Event.isStage (extractForecastData env resp2).2 = [] :=
      (extractForecastData_trace_no_stage env resp2).1
    have hr : List.filterMap Event.report (extractForecastData env resp2).2 = [] :=
      (extractForecastData_trace_no_stage env resp2).2
    rw [submitForm_extraction_fails env r resp resp2 data e hm hpf hget hdec hget2 hex]
    simp [stagesRun, reported, Event.isStage, Event.report, List.filter_append,
      List.filterMap_append, hs, hr]
  have c5 : ∀ resp data resp2,
      env.httpGet 0 (Sprintf "https://api.weather.gov/points/%s,%s"
        [r.FormValue "latitude", r.FormValue "longitude"]) = .ok resp →
      env.decodeCoordinate resp = .ok data →
      env.httpGet 1 data.Properties.Forecast = .ok resp2 →
      (extractForecastData env resp2).1.err = none →
      stagesRun (submitForm env r)
        = [.httpGet (Sprintf "https://api.weather.gov/points/%s,%s"
            [r.FormValue "latitude", r.FormValue "longitude"]),
           .callExtractCoordinates resp, .httpGet data.Properties.Forecast,
           .callExtractForecastData resp2,
           .callRenderResponsePage (extractForecastData env resp2).1.shortForecast
            (extractForecastData env resp2).1.tempFeeling] := by
    intro resp data resp2 hget hdec hget2 hex
    have hs : List.filter Event.isStage (extractForecastData env resp2).2 = [] :=
      (extractForecastData_trace_no_stage env resp2).1
    have hrd : List.filter Event.isStage
        (renderResponsePage env (extractForecastData env resp2).1.shortForecast
          (extractForecastData env resp2).1.tempFeeling) = [] :=
      renderResponsePage_no_stage env _ _
    rw [submitForm_all_succeed env r resp resp2 data hm hpf hget hdec hget2 hex]
    simp [stagesRun, Event.isStage, List.filter_append, hs, hrd]
  refine ⟨c1, c2, c3, c4, c5, ?_⟩
  intro forecastData tempFeeling hmem
  have hst := mem_stagesRun _ _ (by rfl) hmem
  cases hget : env.httpGet 0 (Sprintf "https://api.weather.gov/points/%s,%s"
      [r.FormValue "latitude", r.FormValue "longitude"]) with
  | error e =>
    rw [(c1 e hget).1] at hst
    simp at hst
  | ok resp =>
    cases hdec : env.decodeCoordinate resp with
    | error e =>
      rw [(c2 resp e hget hdec).1] at hst
      simp at hst
    | ok data =>
      cases hget2 : env.httpGet 1 data.Properties.Forecast with
      | error e =>
        rw [(c3 resp data e hget hdec hget2).1] at hst
        simp at hst
      | ok resp2 =>
        cases hex : (extractForecastData env resp2).1.err with
        | some e =>
          rw [(c4 resp data resp2 e hget hdec hget2 hex).1] at hst
          simp at hst
        | none =>
          rw [c5 resp data resp2 hget hdec hget2 hex] at hst
          simp at hst
          exact ⟨resp, data, resp2, rfl, hdec, hget2, hex, hst.1, hst.2⟩

/-- Witness of C8: the second upstream call returns a network error; the fetch failure
is reported and the stages run end with the second request. -/
theorem submitForm_fail_fast_witness :
    stagesRun (submitForm (envSecondGetFails (payloadOf [periodOf "Today" 75 "F" "Sunny"]))
        (postRequest "39.7456" "-97.0892"))
      = [.httpGet "https://api.weather.gov/points/39.7456,-97.0892",
         .callExtractCoordinates
           (Response.mk 200 "https://api.weather.gov/points/39.7456,-97.0892"),
         .httpGet "https://x/forecast"] ∧
    reported (submitForm (envSecondGetFails (payloadOf [periodOf "Today" 75 "F" "Sunny"]))
        (postRequest "39.7456" "-97.0892"))
      = [("Error making second API request", 500)] :=
  have h := (submitForm_fail_fast
    (envSecondGetFails (payloadOf [periodOf "Today" 75 "F" "Sunny"]))
    (postRequest "39.7456" "-97.0892") rfl rfl).2.2.1
    (Response.mk 200 "https://api.weather.gov/points/39.7456,-97.0892")
    (CoordinateModel.mk (CoordinateProperties.mk "https://x/forecast"))
    (GoError.mk "dial tcp: connection refused") rfl rfl rfl
  ⟨h.1.trans (by decide), h.2.1⟩

/-- C9: for every pair of strings latitude and longitude submitted in the form, with
no validation, the first URL requested by `submitForm` is
`https://api.weather.gov/points/` followed by latitude, a comma and longitude; two
requests whose latitudes contain no comma and whose (latitude, longitude) pairs differ
request different URLs. -/
theorem submitForm_points_url (env env' : Env) (r r' : Request)
    (hm : r.Method = "POST") (hpf : r.ParseForm = none)
    (hm' : r'.Method = "POST") (hpf' : r'.ParseForm = none) :
    (requestedURLs (submitForm env r)).head?
      = some ("https://api.weather.gov/points/" ++ r.FormValue "latitude" ++ ","
          ++ r.FormValue "longitude") ∧
    (',' ∉ (r.FormValue "latitude").data → ',' ∉ (r'.FormValue "latitude").data →
      (r.FormValue "latitude", r.FormValue "longitude")
        ≠ (r'.FormValue "latitude", r'.FormValue "longitude") →
      (requestedURLs (submitForm env r)).head?
        ≠ (requestedURLs (submitForm env' r')).head?) := by
  refine ⟨?_, fun hc hc' hne heq => hne ?_⟩
  · rw [submitForm_first_url env r hm hpf, Sprintf_points]
  · rw [submitForm_first_url env r hm hpf, submitForm_first_url env' r' hm' hpf'] at heq
    have h := points_url_injective _ _ _ _ hc hc' (Option.some.inj heq)
    rw [h.1, h.2]

/-- Witness of C9 at the coordinates (`39.7456`, `-97.0892`), against (`40`, `-97`). -/
theorem submitForm_points_url_witness :
    (requestedURLs (submitForm (envOf (payloadOf [])) (postRequest "39.7456" "-97.0892"))).head?
      = some "https://api.weather.gov/points/39.7456,-97.0892" ∧
    (requestedURLs (submitForm (envOf (payloadOf [])) (postRequest "39.7456" "-97.0892"))).head?
      ≠ (requestedURLs (submitForm (envOf (payloadOf [])) (postRequest "40" "-97"))).head? :=
  have h := submitForm_points_url (envOf (payloadOf [])) (envOf (payloadOf []))
    (postRequest "39.7456" "-97.0892") (postRequest "40" "-97") rfl rfl rfl rfl
  ⟨h.1.trans (by decide), h.2 (by decide) (by decide) (by decide)⟩

end WeatherService
